import Mathlib

/-!
Verification development for the EasyEDA ngspice simulation extension
(src/src/index.ts). The extension is a bridge between the EasyEDA host
and a WASM build of ngspice: `activate` registers a pull-event listener,
`runNgspice` loads the engine, feeds it a netlist and probe
specifications, runs the simulation and pushes the serialized result
(or an error message) back through the host push-event channel.

The embedding models JavaScript runtime values shallowly (`JsValue`),
models the external collaborators (host filesystem, the `Ngspice`
factory, the engine session, the script-loading strategies, the base64
decoder) as an oracle environment `Env` of step outcomes, and translates
the control flow of `index.ts` into pure Lean functions that produce a
trace of engine-side effects plus the list of host push events.
-/

/-- Model of a JavaScript number as seen by this bridge: NaN, the two
infinities, or a finite value (modelled as a rational; the bridge never
does arithmetic on numbers, it only coerces and forwards them). -/
inductive JsNum where
  | nan : JsNum
  | inf : JsNum
  | negInf : JsNum
  | fin : ℚ → JsNum
deriving DecidableEq, Repr

/-- Shallow model of a JavaScript runtime value: the payloads that can
arrive in the pull-event `props` and the values external calls can
throw. Objects are association lists of string keys. -/
inductive JsValue where
  | undef : JsValue
  | null : JsValue
  | bool : Bool → JsValue
  | num : JsNum → JsValue
  | str : String → JsValue
  | arr : List JsValue → JsValue
  | obj : List (String × JsValue) → JsValue

/-- Modelled builtin: the result of the JavaScript `typeof` operator
(note `typeof null` and `typeof []` are both the string "object"). -/
def jsTypeof : JsValue → String
  | .undef => "undefined"
  | .null => "object"
  | .bool _ => "boolean"
  | .num _ => "number"
  | .str _ => "string"
  | .arr _ => "object"
  | .obj _ => "object"

/-- Modelled builtin: JavaScript truthiness test (`!v` is `!jsTruthy v`).
`undefined`, `null`, `false`, `0`, `NaN` and the empty string are falsy. -/
def jsTruthy : JsValue → Bool
  | .undef => false
  | .null => false
  | .bool b => b
  | .num .nan => false
  | .num (.fin q) => !(q = 0)
  | .num _ => true
  | .str s => !(s = "")
  | .arr _ => true
  | .obj _ => true

/-- Modelled JavaScript property read `v.k` (as the code performs it:
either behind an optional chain or on a value already checked to be an
object). Non-objects and objects without the key yield `undefined`. -/
def jsGet (v : JsValue) (k : String) : JsValue :=
  match v with
  | .obj fields =>
    match fields.find? (fun p => p.1 = k) with
    | some p => p.2
    | none => .undef
  | _ => (JsValue.undef)

/-- Modelled builtin: the nullish-coalescing operator `a ?? b`. -/
def jsNullish (a b : JsValue) : JsValue :=
  match a with
  | .undef => b
  | .null => b
  | v => v

/-- Modelled builtin (subset): number-to-string conversion. Finite
integers print as decimal integers; other finite values print the
rational. The probe identifiers the claims exercise are strings or
integers, so only those need to be exact. -/
def jsNumToString : JsNum → String
  | .nan => "NaN"
  | .inf => "Infinity"
  | .negInf => "-Infinity"
  | .fin q => if q.den = 1 then toString q.num else toString q

mutual

/-- Modelled builtin: JavaScript `String(v)` / ToString. Arrays join
their elements with commas, with `undefined` and `null` elements
becoming empty; plain objects print as "[object Object]". -/
def jsToString : JsValue → String
  | .undef => "undefined"
  | .null => "null"
  | .bool b => cond b "true" "false"
  | .num n => jsNumToString n
  | .str s => s
  | .obj _ => "[object Object]"
  | .arr xs => jsArrToString xs

/-- Modelled builtin helper: the comma join of Array.prototype.toString,
with `undefined` and `null` elements contributing empty text. -/
def jsArrToString : List JsValue → String
  | [] => ""
  | [.undef] => ""
  | [.null] => ""
  | [v] => jsToString v
  | .undef :: rest => "," ++ jsArrToString rest
  | .null :: rest => "," ++ jsArrToString rest
  | v :: rest => jsToString v ++ "," ++ jsArrToString rest

end

/-- Modelled builtin: String.prototype.trim, dropping leading and
trailing whitespace characters (kept kernel-reducible so that concrete
witnesses evaluate). -/
def jsTrim (s : String) : String :=
  String.mk (((s.data.dropWhile Char.isWhitespace).reverse.dropWhile Char.isWhitespace).reverse)

/-- Modelled builtin (subset): StringToNumber as used by `Number` on a
string argument: whitespace-only becomes 0, optionally signed decimal
integers parse exactly, anything else in the modelled subset is NaN. -/
def jsStrToNumber (s : String) : JsNum :=
  let t := jsTrim s
  if t = "" then .fin 0
  else
    match t.toInt? with
    | some i => .fin i
    | none => .nan

/-- Modelled builtin: JavaScript `Number(v)` / ToNumber. `undefined`
maps to NaN, `null` to 0, booleans to 0/1, strings through
StringToNumber, arrays through their string form, plain objects to NaN. -/
def jsToNumber : JsValue → JsNum
  | .undef => .nan
  | .null => .fin 0
  | .bool b => .fin (cond b 1 0)
  | .num n => n
  | .str s => jsStrToNumber s
  | .arr xs => jsStrToNumber (jsToString (.arr xs))
  | .obj _ => .nan

/-- A thrown JavaScript value as seen by the catch handler in
`runNgspice`: either an `Error` instance (carrying its `message`
string) or an arbitrary non-`Error` value. -/
inductive JsErr where
  | errObj : String → JsErr
  | thrown : JsValue → JsErr

/-- Translation of `index.ts` line 246: the text the catch handler
reports, `e instanceof Error ? e.message : String(e)`. -/
def caughtMessage : JsErr → String
  | .errObj m => m
  | .thrown v => jsToString v

/-- Engine-side effects the bridge performs, in the order it performs
them; push events to the host are kept separately. `loadScriptE` marks
one invocation of the script-loading strategies of `loadScript`
(index.ts lines 118-156: script injection, extension-file read, global
eval, network fetch). -/
inductive Effect where
  | loadScriptE : Effect
  | mkdir : String → Effect
  | writeFile : String → List Nat → Effect
  | loadDynLib : String → Effect
  | loadNetlistE : String → Effect
  | addProbe : String → JsNum → JsNum → JsNum → Effect
  | runE : Effect
deriving DecidableEq, Repr

/-- The push-event tags of `index.ts` (enum `SpicePushEventType`). -/
inductive SpicePushEventType where
  | SIMULATION_RESULT : SpicePushEventType
  | VALIDATION_RESULT : SpicePushEventType
  | LOG_RESULT : SpicePushEventType
  | ERROR_RESULT : SpicePushEventType
deriving DecidableEq, Repr

/-- Oracle environment: outcomes of every external call the bridge
makes. The code under verification is the composition logic of
`index.ts`; the host filesystem, the base64 decoder, the `Ngspice`
factory and the engine session are external collaborators whose
individual outcomes (return or throw) the environment fixes. -/
structure Env where
  /-- Is `globalThis.Ngspice` a function before the run (line 159)? -/
  ngspiceIsFunction : Bool
  /-- Outcome of one invocation of the `loadScript` strategies (line 162). -/
  loadScriptResult : Except JsErr Unit
  /-- Is `globalThis.Ngspice` a function after `loadScript` (line 163)? -/
  ngspiceAfterLoad : Bool
  /-- Outcome of `readExtensionBinary('wasm/ngspice.wasm')` (line 202). -/
  readMainWasm : Except JsErr (Option (List Nat))
  /-- The embedded base64 text for the main wasm ("" is falsy, line 202). -/
  embeddedMainBase64 : String
  /-- Outcome of `readExtensionBinary('wasm/libngspice.wasm')` (line 209). -/
  readSideWasm : Except JsErr (Option (List Nat))
  /-- The embedded base64 text for the side wasm ("" is falsy, line 209). -/
  embeddedSideBase64 : String
  /-- The available base64 decoder (`atob` or `Buffer`, lines 104-114);
  `none` makes `base64ToBytes` throw (line 115). -/
  base64Decoder : Option (String → List Nat)
  /-- Outcome of the factory call `Ngspice({...})` (line 204). -/
  factoryResult : Except JsErr Unit
  /-- Result of `Module.FS.analyzePath('/wasm').exists` (line 212). -/
  analyzePathWasmExists : Bool
  /-- Outcome of `Module.FS.mkdir('/wasm')` (line 213). -/
  mkdirResult : Except JsErr Unit
  /-- Outcome of `Module.FS.writeFile(...)` (line 215). -/
  writeFileResult : Except JsErr Unit
  /-- Outcome of `Module.loadDynamicLibrary(...)` (line 217). -/
  loadDynamicLibraryResult : Except JsErr Unit
  /-- Outcome of `new Module.NgSpiceWasm()` (line 222). -/
  newSessionResult : Except JsErr Unit
  /-- Outcome of `sim.loadNetlist(text)` (line 226). -/
  loadNetlistResult : String → Except JsErr Unit
  /-- Outcome of `sim.addProbeNode(id, type, low, high)` (line 239). -/
  addProbeNodeResult : String → JsNum → JsNum → JsNum → Except JsErr Unit
  /-- Outcome of `sim.run()` (line 241). -/
  runResult : Except JsErr Unit
  /-- Outcome of `sim.getResultJson()` (line 242). -/
  getResultJsonResult : Except JsErr String

/-- Translation of `base64ToBytes` (lines 103-116): decode with the
available decoder, throw `Error('No base64 decoder available')` if
neither `atob` nor `Buffer` exists. -/
def base64ToBytes (env : Env) (data : String) : Except JsErr (List Nat) :=
  match env.base64Decoder with
  | some decode => .ok (decode data)
  | none => .error (.errObj "No base64 decoder available")

/-- Translation of `ensureNgspiceLoaded` (lines 158-166), with the
current presence of the global factory passed in as `g` and the updated
presence returned alongside the effect trace: if the factory is already
a function return at once; otherwise run `loadScript` and throw
`TypeError('Ngspice loader not found after script load')` if the factory
is still not a function. -/
def ensureNgspiceLoaded (g : Bool) (env : Env) : Except JsErr (List Effect × Bool) :=
  if g then .ok ([], g)
  else
    match env.loadScriptResult with
    | .error e => .error e
    | .ok () =>
      if env.ngspiceAfterLoad then .ok ([.loadScriptE], true)
      else .error (.errObj "Ngspice loader not found after script load")

/-- Translation of `readNetlist` (lines 168-171): always returns the
fixed fallback RC netlist. -/
def readNetlist : String :=
  String.intercalate "\n"
    ["* simple rc", "V1 in 0 DC 1", "R1 in out 1k", "C1 out 0 1u", ".tran 1u 10u", ".end"]

/-- Translation of the netlist selection (lines 223-225):
`typeof props?.netlist === 'string' && props.netlist.trim() ? props.netlist : await readNetlist()`. -/
def selectNetlist (props : JsValue) : String :=
  match jsGet props "netlist" with
  | .str s => if jsTrim s = "" then readNetlist else s
  | _ => readNetlist

/-- Translation of the probe-list coercion (line 227):
`Array.isArray(props?.probeNodes) ? props.probeNodes : []`. -/
def probesList (props : JsValue) : List JsValue :=
  match jsGet props "probeNodes" with
  | .arr xs => xs
  | _ => []

/-- Translation of the main-wasm resolution (lines 201-202):
`(await readExtensionBinary(NGSPICE_MAIN_WASM)) ?? (embeddedMainWasmBase64 ? base64ToBytes(embeddedMainWasmBase64) : undefined)`. -/
def mainWasmOf (env : Env) : Except JsErr (Option (List Nat)) :=
  match env.readMainWasm with
  | .error e => .error e
  | .ok (some bytes) => .ok (some bytes)
  | .ok none =>
    if env.embeddedMainBase64 = "" then .ok none
    else
      match base64ToBytes env env.embeddedMainBase64 with
      | .error e => .error e
      | .ok bytes => .ok (some bytes)

/-- Translation of the side-wasm resolution (lines 208-209), same
shape as the main-wasm resolution. -/
def sideWasmOf (env : Env) : Except JsErr (Option (List Nat)) :=
  match env.readSideWasm with
  | .error e => .error e
  | .ok (some bytes) => .ok (some bytes)
  | .ok none =>
    if env.embeddedSideBase64 = "" then .ok none
    else
      match base64ToBytes env env.embeddedSideBase64 with
      | .error e => .error e
      | .ok bytes => .ok (some bytes)

/-- Translation of the side-module filesystem steps (lines 211-216):
only when a side payload is present, create `/wasm` if the existence
check reports it absent and write the payload under its logical path.
(The subsequent `loadDynamicLibrary` call, line 217, is outside the
`if (sideWasm)` block in the source and is handled by the caller.) -/
def sideSteps (env : Env) (sideWasm : Option (List Nat)) : Except JsErr (List Effect) :=
  match sideWasm with
  | none => .ok []
  | some bytes =>
    if env.analyzePathWasmExists then
      match env.writeFileResult with
      | .error e => .error e
      | .ok () => .ok [.writeFile "/wasm/libngspice.wasm" bytes]
    else
      match env.mkdirResult with
      | .error e => .error e
      | .ok () =>
        match env.writeFileResult with
        | .error e => .error e
        | .ok () => .ok [.mkdir "/wasm", .writeFile "/wasm/libngspice.wasm" bytes]

/-- Translation of the probe-registration loop (lines 228-240): skip
falsy or non-object entries and entries whose `ProbeNode` is undefined
or null; otherwise register a probe with the identifier coerced by
`String` and the three fields coerced by `Number`, each defaulted to the
number 1 by `?? 1`. Returns the `addProbeNode` effects in order, or the
first exception an `addProbeNode` call throws. -/
def probeEffects (env : Env) : List JsValue → Except JsErr (List Effect)
  | [] => .ok []
  | node :: rest =>
    if !(jsTruthy node) || !(jsTypeof node = "object") then probeEffects env rest
    else
      match jsGet node "ProbeNode" with
      | .undef => probeEffects env rest
      | .null => probeEffects env rest
      | id =>
        match env.addProbeNodeResult (jsToString id)
            (jsToNumber (jsNullish (jsGet node "ProbeType") (.num (.fin 1))))
            (jsToNumber (jsNullish (jsGet node "LowLevel") (.num (.fin 1))))
            (jsToNumber (jsNullish (jsGet node "HighLevel") (.num (.fin 1)))) with
        | .error e => .error e
        | .ok () =>
          match probeEffects env rest with
          | .error e => .error e
          | .ok tr => .ok (.addProbe (jsToString id)
              (jsToNumber (jsNullish (jsGet node "ProbeType") (.num (.fin 1))))
              (jsToNumber (jsNullish (jsGet node "LowLevel") (.num (.fin 1))))
              (jsToNumber (jsNullish (jsGet node "HighLevel") (.num (.fin 1)))) :: tr)

/-- Translation of the body of the `try` block of `runNgspice`
(lines 196-243): the straight-line sequence of engine steps. On success
it returns the effect trace together with the `getResultJson` text; the
first exception any step throws aborts the sequence. -/
def runBody (env : Env) (props : JsValue) : Except JsErr (List Effect × String) :=
  match ensureNgspiceLoaded env.ngspiceIsFunction env with
  | .error e => .error e
  | .ok (trEnsure, _) =>
    match mainWasmOf env with
    | .error e => .error e
    | .ok _mainWasm =>
      match env.factoryResult with
      | .error e => .error e
      | .ok () =>
        match sideWasmOf env with
        | .error e => .error e
        | .ok sideWasm =>
          match sideSteps env sideWasm with
          | .error e => .error e
          | .ok trSide =>
            match env.loadDynamicLibraryResult with
            | .error e => .error e
            | .ok () =>
              match env.newSessionResult with
              | .error e => .error e
              | .ok () =>
                match env.loadNetlistResult (selectNetlist props) with
                | .error e => .error e
                | .ok () =>
                  match probeEffects env (probesList props) with
                  | .error e => .error e
                  | .ok trProbes =>
                    match env.runResult with
                    | .error e => .error e
                    | .ok () =>
                      match env.getResultJsonResult with
                      | .error e => .error e
                      | .ok json =>
                        .ok (trEnsure ++ trSide
                            ++ [.loadDynLib "/wasm/libngspice.wasm"]
                            ++ [.loadNetlistE (selectNetlist props)]
                            ++ trProbes ++ [.runE], json)

/-- Translation of `runNgspice` (lines 195-250): run the body inside
the single try/catch; a successful body yields exactly one
SIMULATION_RESULT push carrying the `getResultJson` text, a thrown
value yields exactly one ERROR_RESULT push carrying `caughtMessage`.
The function is total: the exception is never re-raised, so the
returned promise always resolves. The host push channel
(`eda.sch_SimulationEngine.pushData`) is modelled as non-throwing. -/
def runNgspice (env : Env) (props : JsValue) : List Effect × List (SpicePushEventType × String) :=
  match runBody env props with
  | .ok (tr, json) => (tr, [(.SIMULATION_RESULT, json)])
  | .error e => ([], [(.ERROR_RESULT, caughtMessage e)])

/-- Host-side effects of the lifecycle entry point. -/
inductive ActivateEffect where
  | registerListener : String → String → ActivateEffect
deriving DecidableEq, Repr

/-- Translation of `activate` (lines 173-186): only the status
`'onStartupFinished'` registers the pull-event listener, named
`'sim-engine-monitor'` and scoped to `'all'`; any other status
registers nothing. -/
def activate (status : Option String) : List ActivateEffect :=
  match status with
  | some "onStartupFinished" => [.registerListener "sim-engine-monitor" "all"]
  | _ => []

/-- Translation of the registered listener body (lines 177-183): on the
SIMULATE_NETLIST event type it invokes the Simulation Bridge with the
payload, fire-and-forget (the listener does not await `runNgspice`, so
its return value is just the decision to invoke, never the bridge's
result); every other event type is ignored. -/
def listenerDispatch (eventType : String) (props : JsValue) : Option JsValue :=
  match eventType with
  | "SIMULATE_NETLIST" => some props
  | _ => none

/-- Per-entry outcome of one iteration of the probe loop (the loop body
of lines 228-240, with the engine call abstracted away): `none` when the
entry is skipped, `some` the registered probe effect otherwise. -/
def probeSpec (node : JsValue) : Option Effect :=
  if !(jsTruthy node) || !(jsTypeof node = "object") then none
  else
    match jsGet node "ProbeNode" with
    | .undef => none
    | .null => none
    | id =>
      some (.addProbe (jsToString id)
        (jsToNumber (jsNullish (jsGet node "ProbeType") (.num (.fin 1))))
        (jsToNumber (jsNullish (jsGet node "LowLevel") (.num (.fin 1))))
        (jsToNumber (jsNullish (jsGet node "HighLevel") (.num (.fin 1)))))

/-- Recognizer for netlist-load effects in a trace. -/
def isLoadNetlistEffect : Effect → Bool
  | .loadNetlistE _ => true
  | _ => false

/-- Concrete environment in which every external call succeeds: the
factory is already installed, both wasm payloads come from the host
filesystem, `/wasm` does not yet exist, and the session reports the
result text "RESULT". Used to instantiate the theorems below. -/
def envOK : Env where
  ngspiceIsFunction := true
  loadScriptResult := .ok ()
  ngspiceAfterLoad := true
  readMainWasm := .ok (some [0])
  embeddedMainBase64 := ""
  readSideWasm := .ok (some [1])
  embeddedSideBase64 := ""
  base64Decoder := some (fun _ => [])
  factoryResult := .ok ()
  analyzePathWasmExists := false
  mkdirResult := .ok ()
  writeFileResult := .ok ()
  loadDynamicLibraryResult := .ok ()
  newSessionResult := .ok ()
  loadNetlistResult := fun _ => .ok ()
  addProbeNodeResult := fun _ _ _ _ => .ok ()
  runResult := .ok ()
  getResultJsonResult := .ok "RESULT"

/-- Environment in which the first step (the script-loading strategies)
throws an `Error` with message "boom". -/
def envLoadBoom : Env :=
  { envOK with ngspiceIsFunction := false, loadScriptResult := .error (.errObj "boom") }

/-- Environment in which the script loading runs but never installs the
factory function. -/
def envLoaderMissing : Env :=
  { envOK with ngspiceIsFunction := false, ngspiceAfterLoad := false }

/-- Environment in which no side wasm payload is available from any
source; every other call succeeds. -/
def envNoSide : Env :=
  { envOK with readSideWasm := .ok none }

/-- Environment in which `sim.run()` throws a non-`Error` object that
nevertheless carries a "message" field. -/
def envThrowObj : Env :=
  { envOK with runResult := .error (.thrown (.obj [("message", .str "boom")])) }

/-- A probe entry whose three numeric fields are all explicitly null. -/
def nodeNullFields : JsValue :=
  .obj [("ProbeNode", .str "n1"), ("ProbeType", .null), ("LowLevel", .null), ("HighLevel", .null)]

/-- Environment in which the factory is not yet installed but the
script-loading strategies succeed and install it. -/
def envScriptLoads : Env :=
  { envOK with ngspiceIsFunction := false }

/-- Environment in which the existence check reports that `/wasm`
already exists in the engine's virtual filesystem. -/
def envWasmDirExists : Env :=
  { envOK with analyzePathWasmExists := true }

/-- Helper: a successful `ensureNgspiceLoaded` leaves the factory
installed and invoked the loading strategies at most once. -/
theorem ensureNgspiceLoaded_ok (g : Bool) (env : Env) (tr : List Effect) (g1 : Bool)
    (h : ensureNgspiceLoaded g env = .ok (tr, g1)) :
    g1 = true ∧ (tr = [] ∨ tr = [.loadScriptE]) := by
  unfold ensureNgspiceLoaded at h
  split at h
  · rename_i hg
    cases h
    exact ⟨hg, Or.inl rfl⟩
  · split at h
    · exact absurd h (by simp)
    · split at h
      · cases h
        exact ⟨rfl, Or.inr rfl⟩
      · exact absurd h (by simp)

/-- Helper: the trace of a successful `sideSteps` consists only of the
mkdir and writeFile effects on the `/wasm` paths, and is empty when no
side payload is present. -/
theorem sideSteps_ok (env : Env) (sw : Option (List Nat)) (tr : List Effect)
    (h : sideSteps env sw = .ok tr) :
    tr = [] ∨ (∃ b, tr = [.writeFile "/wasm/libngspice.wasm" b]) ∨
      (∃ b, tr = [.mkdir "/wasm", .writeFile "/wasm/libngspice.wasm" b]) := by
  unfold sideSteps at h
  split at h
  · cases h; exact Or.inl rfl
  · rename_i bytes
    split at h
    · split at h
      · exact absurd h (by simp)
      · cases h; exact Or.inr (Or.inl ⟨bytes, rfl⟩)
    · split at h
      · exact absurd h (by simp)
      · split at h
        · exact absurd h (by simp)
        · cases h; exact Or.inr (Or.inr ⟨bytes, rfl⟩)

/-- Helper: every effect in a successful probe-loop trace is an
`addProbe` effect. -/
theorem probeEffects_ok_all (env : Env) :
    ∀ (nodes : List JsValue) (tr : List Effect), probeEffects env nodes = .ok tr →
      ∀ e ∈ tr, ∃ s a b c, e = Effect.addProbe s a b c := by
  intro nodes
  induction nodes with
  | nil =>
    intro tr h e he
    unfold probeEffects at h
    cases h
    cases he
  | cons node rest ih =>
    intro tr h e he
    unfold probeEffects at h
    split at h
    · exact ih tr h e he
    · split at h
      · exact ih tr h e he
      · exact ih tr h e he
      · split at h
        · exact absurd h (by simp)
        · split at h
          · exact absurd h (by simp)
          · rename_i tr1 hrest
            cases h
            rcases List.mem_cons.mp he with he | he
            · exact ⟨_, _, _, _, he⟩
            · exact ih tr1 hrest e he

/-- Helper: a successful run body decomposes into the traces of its
steps: the ensure-loaded trace, the side-module trace, the unconditional
dynamic-library load, the single netlist load of the selected netlist,
the probe trace and the run call, with the result text coming from
`getResultJson`. -/
theorem runBody_ok_shape (env : Env) (props : JsValue) (tr : List Effect) (json : String)
    (h : runBody env props = .ok (tr, json)) :
    ∃ trEnsure g1 sideWasm trSide trProbes,
      ensureNgspiceLoaded env.ngspiceIsFunction env = .ok (trEnsure, g1) ∧
      sideWasmOf env = .ok sideWasm ∧
      sideSteps env sideWasm = .ok trSide ∧
      probeEffects env (probesList props) = .ok trProbes ∧
      env.getResultJsonResult = .ok json ∧
      tr = trEnsure ++ trSide ++ [.loadDynLib "/wasm/libngspice.wasm"]
          ++ [.loadNetlistE (selectNetlist props)] ++ trProbes ++ [.runE] := by
  unfold runBody at h
  split at h
  · exact absurd h (by simp)
  split at h
  · exact absurd h (by simp)
  split at h
  · exact absurd h (by simp)
  split at h
  · exact absurd h (by simp)
  split at h
  · exact absurd h (by simp)
  split at h
  · exact absurd h (by simp)
  split at h
  · exact absurd h (by simp)
  split at h
  · exact absurd h (by simp)
  split at h
  · exact absurd h (by simp)
  split at h
  · exact absurd h (by simp)
  split at h
  · exact absurd h (by simp)
  cases h
  exact ⟨_, _, _, _, _, by assumption, by assumption, by assumption, by assumption,
    by assumption, rfl⟩

/-- C3: whenever any step of the run sequence throws, the bridge emits
exactly one ERROR_RESULT push and zero SIMULATION_RESULT pushes, and
`runNgspice` still returns a value (the exception is caught by the
single top-level handler, never re-raised: the model function is total). -/
theorem run_error_single_error_push (env : Env) (props : JsValue) (e : JsErr)
    (h : runBody env props = Except.error e) :
    (runNgspice env props).2 = [(SpicePushEventType.ERROR_RESULT, caughtMessage e)] ∧
    ((runNgspice env props).2.filter
      (fun p => p.1 = SpicePushEventType.ERROR_RESULT)).length = 1 ∧
    ((runNgspice env props).2.filter
      (fun p => p.1 = SpicePushEventType.SIMULATION_RESULT)).length = 0 := by
  simp [runNgspice, h, List.filter]

/-- Witness for C3: a run whose script-loading step throws an Error with
message "boom" pushes exactly that one error. -/
theorem run_error_single_error_push_witness :
    (runNgspice envLoadBoom JsValue.undef).2
        = [(SpicePushEventType.ERROR_RESULT, caughtMessage (JsErr.errObj "boom"))] ∧
    ((runNgspice envLoadBoom JsValue.undef).2.filter
      (fun p => p.1 = SpicePushEventType.ERROR_RESULT)).length = 1 ∧
    ((runNgspice envLoadBoom JsValue.undef).2.filter
      (fun p => p.1 = SpicePushEventType.SIMULATION_RESULT)).length = 0 :=
  run_error_single_error_push envLoadBoom JsValue.undef (JsErr.errObj "boom") rfl

/-- C4: whenever no step throws, the bridge emits exactly one
SIMULATION_RESULT push whose data is exactly the text returned by the
session's `getResultJson` call, and zero ERROR_RESULT pushes. -/
theorem run_success_single_result_push (env : Env) (props : JsValue)
    (tr : List Effect) (json : String) (h : runBody env props = Except.ok (tr, json)) :
    (runNgspice env props).2 = [(SpicePushEventType.SIMULATION_RESULT, json)] ∧
    env.getResultJsonResult = Except.ok json ∧
    ((runNgspice env props).2.filter
      (fun p => p.1 = SpicePushEventType.ERROR_RESULT)).length = 0 := by
  obtain ⟨_, _, _, _, _, _, _, _, _, hjson, _⟩ := runBody_ok_shape env props tr json h
  refine ⟨?_, hjson, ?_⟩ <;> simp [runNgspice, h, List.filter]

/-- Witness for C4: the all-success environment pushes exactly one
SIMULATION_RESULT carrying the session's text "RESULT". -/
theorem run_success_single_result_push_witness :
    (runNgspice envOK JsValue.undef).2 = [(SpicePushEventType.SIMULATION_RESULT, "RESULT")] ∧
    envOK.getResultJsonResult = Except.ok "RESULT" ∧
    ((runNgspice envOK JsValue.undef).2.filter
      (fun p => p.1 = SpicePushEventType.ERROR_RESULT)).length = 0 :=
  run_success_single_result_push envOK JsValue.undef
    [Effect.mkdir "/wasm", Effect.writeFile "/wasm/libngspice.wasm" [1],
     Effect.loadDynLib "/wasm/libngspice.wasm",
     Effect.loadNetlistE "* simple rc\nV1 in 0 DC 1\nR1 in out 1k\nC1 out 0 1u\n.tran 1u 10u\n.end",
     Effect.runE] "RESULT" rfl

/-- C7: when the factory is absent, the loading strategies complete, and
the factory is still absent afterwards, the run pushes exactly one
ERROR_RESULT whose message text is exactly
"Ngspice loader not found after script load". -/
theorem loader_not_found_error_push (env : Env) (props : JsValue)
    (h1 : env.ngspiceIsFunction = false) (h2 : env.loadScriptResult = Except.ok ())
    (h3 : env.ngspiceAfterLoad = false) :
    (runNgspice env props).2
      = [(SpicePushEventType.ERROR_RESULT, "Ngspice loader not found after script load")] ∧
    ((runNgspice env props).2.filter
      (fun p => p.1 = SpicePushEventType.SIMULATION_RESULT)).length = 0 := by
  have hb : runBody env props
      = Except.error (JsErr.errObj "Ngspice loader not found after script load") := by
    unfold runBody ensureNgspiceLoaded
    rw [h1, h2, h3]
    simp
  simp [runNgspice, hb, caughtMessage, List.filter]

/-- Witness for C7: concrete environment in which script loading
succeeds but never installs the factory. -/
theorem loader_not_found_error_push_witness :
    (runNgspice envLoaderMissing JsValue.undef).2
      = [(SpicePushEventType.ERROR_RESULT, "Ngspice loader not found after script load")] ∧
    ((runNgspice envLoaderMissing JsValue.undef).2.filter
      (fun p => p.1 = SpicePushEventType.SIMULATION_RESULT)).length = 0 :=
  loader_not_found_error_push envLoaderMissing JsValue.undef rfl rfl rfl

/-- C5: the ensure-loaded step is idempotent: when the factory is
already installed it returns at once with an empty trace (no invocation
of the loading strategies), and across two consecutive calls where the
first succeeds, the loading strategies run at most once in total (the
second call's trace is empty). -/
theorem ensure_loaded_idempotent :
    (∀ env : Env, ensureNgspiceLoaded true env = Except.ok ([], true)) ∧
    (∀ (env env2 : Env) (g g1 : Bool) (tr : List Effect),
      ensureNgspiceLoaded g env = Except.ok (tr, g1) →
      ensureNgspiceLoaded g1 env2 = Except.ok ([], true) ∧
      ((tr ++ ([] : List Effect)).filter (fun e => e = Effect.loadScriptE)).length ≤ 1) := by
  constructor
  · intro env
    rfl
  · intro env env2 g g1 tr h
    obtain ⟨hg1, htr⟩ := ensureNgspiceLoaded_ok g env tr g1 h
    subst hg1
    refine ⟨rfl, ?_⟩
    rcases htr with rfl | rfl <;> simp [List.filter]

/-- Witness for C5: a first call that installs the factory via the
loading strategies, followed by a second call that is a no-op. -/
theorem ensure_loaded_idempotent_witness :
    ensureNgspiceLoaded true envOK = Except.ok ([], true) ∧
    (ensureNgspiceLoaded true envOK = Except.ok ([], true) ∧
      ((([Effect.loadScriptE] : List Effect) ++ []).filter
        (fun e => e = Effect.loadScriptE)).length ≤ 1) :=
  ⟨ensure_loaded_idempotent.1 envOK,
   ensure_loaded_idempotent.2 envScriptLoads envOK false true [Effect.loadScriptE] rfl⟩

/-- Helper: when the engine's probe-registration call never throws, the
probe loop produces exactly the per-entry outcomes `probeSpec`, one
effect per non-skipped entry, in order. -/
theorem probeEffects_eq_filterMap (env : Env)
    (hok : ∀ s a b c, env.addProbeNodeResult s a b c = Except.ok ()) :
    ∀ nodes : List JsValue, probeEffects env nodes = Except.ok (nodes.filterMap probeSpec) := by
  intro nodes
  induction nodes with
  | nil => rfl
  | cons node rest ih =>
    simp only [probeEffects, probeSpec, List.filterMap_cons]
    split_ifs with hguard
    · exact ih
    · cases hg : jsGet node "ProbeNode" <;> simp [hok, ih]

/-- C1: the probe list is treated as empty when `probeNodes` is not an
array; each non-object or identifier-less entry registers zero probes
without failing the run; every remaining entry registers exactly one
probe whose identifier is the `ProbeNode` value coerced to text and
whose type and levels are coerced to numbers, with absent fields
defaulting to the number 1. -/
theorem probe_list_registration :
    (∀ props : JsValue, (∀ xs, jsGet props "probeNodes" ≠ JsValue.arr xs) →
      probesList props = []) ∧
    (∀ (env : Env) (nodes : List JsValue),
      (∀ s a b c, env.addProbeNodeResult s a b c = Except.ok ()) →
      probeEffects env nodes = Except.ok (nodes.filterMap probeSpec)) ∧
    (∀ node : JsValue,
      jsTruthy node = false ∨ jsTypeof node ≠ "object" ∨
        jsGet node "ProbeNode" = JsValue.undef ∨ jsGet node "ProbeNode" = JsValue.null →
      probeSpec node = none) ∧
    (∀ node : JsValue, jsTruthy node = true → jsTypeof node = "object" →
      jsGet node "ProbeNode" ≠ JsValue.undef → jsGet node "ProbeNode" ≠ JsValue.null →
      probeSpec node = some (Effect.addProbe (jsToString (jsGet node "ProbeNode"))
        (jsToNumber (jsNullish (jsGet node "ProbeType") (JsValue.num (JsNum.fin 1))))
        (jsToNumber (jsNullish (jsGet node "LowLevel") (JsValue.num (JsNum.fin 1))))
        (jsToNumber (jsNullish (jsGet node "HighLevel") (JsValue.num (JsNum.fin 1)))))) ∧
    jsToNumber (jsNullish JsValue.undef (JsValue.num (JsNum.fin 1))) = JsNum.fin 1 := by
  refine ⟨?_, ?_, ?_, ?_, rfl⟩
  · intro props hna
    unfold probesList
    cases hg : jsGet props "probeNodes" with
    | arr xs => exact absurd hg (hna xs)
    | undef => rfl
    | null => rfl
    | bool b => rfl
    | num n => rfl
    | str s => rfl
    | obj fs => rfl
  · intro env nodes hok
    exact probeEffects_eq_filterMap env hok nodes
  · intro node hskip
    unfold probeSpec
    rcases hskip with h | h | h | h
    · simp [h]
    · simp [h]
    · simp [h]
    · simp [h]
  · intro node ht hobj hu hn
    unfold probeSpec
    rw [if_neg (by simp [ht, hobj])]
    cases hg : jsGet node "ProbeNode" with
    | undef => exact absurd hg hu
    | null => exact absurd hg hn
    | bool b => rfl
    | num n => rfl
    | str s => rfl
    | arr xs => rfl
    | obj fs => rfl

/-- Witness for C1: a non-array probe list yields no probes; the loop on
one well-formed entry registers exactly its probe; a null entry is
skipped; the entry with only a ProbeNode field registers with all three
numeric fields defaulted to 1. -/
theorem probe_list_registration_witness :
    probesList JsValue.undef = [] ∧
    probeEffects envOK [JsValue.obj [("ProbeNode", JsValue.str "1")]]
      = Except.ok ([JsValue.obj [("ProbeNode", JsValue.str "1")]].filterMap probeSpec) ∧
    probeSpec JsValue.null = none ∧
    probeSpec (JsValue.obj [("ProbeNode", JsValue.str "1")])
      = some (Effect.addProbe
          (jsToString (jsGet (JsValue.obj [("ProbeNode", JsValue.str "1")]) "ProbeNode"))
          (jsToNumber (jsNullish (jsGet (JsValue.obj [("ProbeNode", JsValue.str "1")]) "ProbeType")
            (JsValue.num (JsNum.fin 1))))
          (jsToNumber (jsNullish (jsGet (JsValue.obj [("ProbeNode", JsValue.str "1")]) "LowLevel")
            (JsValue.num (JsNum.fin 1))))
          (jsToNumber (jsNullish (jsGet (JsValue.obj [("ProbeNode", JsValue.str "1")]) "HighLevel")
            (JsValue.num (JsNum.fin 1))))) ∧
    jsToNumber (jsNullish JsValue.undef (JsValue.num (JsNum.fin 1))) = JsNum.fin 1 :=
  ⟨probe_list_registration.1 JsValue.undef (fun xs h => JsValue.noConfusion h),
   probe_list_registration.2.1 envOK [JsValue.obj [("ProbeNode", JsValue.str "1")]]
     (fun s a b c => rfl),
   probe_list_registration.2.2.1 JsValue.null (Or.inl rfl),
   probe_list_registration.2.2.2.1 (JsValue.obj [("ProbeNode", JsValue.str "1")]) rfl rfl
     (fun h => JsValue.noConfusion h) (fun h => JsValue.noConfusion h),
   probe_list_registration.2.2.2.2⟩

/-- C10: a probe entry field that is explicitly null (rather than
absent) also registers the default value 1, because the nullish
coalescing `?? 1` treats null and undefined alike. -/
theorem null_probe_field_defaults (node : JsValue) :
    (jsGet node "ProbeType" = JsValue.null → ∀ s a b c,
      probeSpec node = some (Effect.addProbe s a b c) → a = JsNum.fin 1) ∧
    (jsGet node "LowLevel" = JsValue.null → ∀ s a b c,
      probeSpec node = some (Effect.addProbe s a b c) → b = JsNum.fin 1) ∧
    (jsGet node "HighLevel" = JsValue.null → ∀ s a b c,
      probeSpec node = some (Effect.addProbe s a b c) → c = JsNum.fin 1) ∧
    jsToNumber (jsNullish JsValue.null (JsValue.num (JsNum.fin 1)))
      = jsToNumber (jsNullish JsValue.undef (JsValue.num (JsNum.fin 1))) := by
  refine ⟨?_, ?_, ?_, rfl⟩ <;> intro hnull s a b c hspec <;>
    unfold probeSpec at hspec
  · split at hspec
    · exact absurd hspec (by simp)
    · split at hspec
      · exact absurd hspec (by simp)
      · exact absurd hspec (by simp)
      · rw [hnull] at hspec
        injection hspec with h
        injection h with hs ha hb hc
        exact ha.symm
  · split at hspec
    · exact absurd hspec (by simp)
    · split at hspec
      · exact absurd hspec (by simp)
      · exact absurd hspec (by simp)
      · rw [hnull] at hspec
        injection hspec with h
        injection h with hs ha hb hc
        exact hb.symm
  · split at hspec
    · exact absurd hspec (by simp)
    · split at hspec
      · exact absurd hspec (by simp)
      · exact absurd hspec (by simp)
      · rw [hnull] at hspec
        injection hspec with h
        injection h with hs ha hb hc
        exact hc.symm

/-- Witness for C10: the entry whose three fields are all explicitly
null registers the probe ("n1", 1, 1, 1). -/
theorem null_probe_field_defaults_witness :
    jsGet nodeNullFields "ProbeType" = JsValue.null ∧
    probeSpec nodeNullFields
      = some (Effect.addProbe "n1" (JsNum.fin 1) (JsNum.fin 1) (JsNum.fin 1)) ∧
    JsNum.fin 1 = JsNum.fin 1 :=
  ⟨rfl, by decide,
   (null_probe_field_defaults nodeNullFields).1 rfl "n1"
     (JsNum.fin 1) (JsNum.fin 1) (JsNum.fin 1) (by decide)⟩

/-- C2: a netlist that is a string and non-blank after trimming is
passed unmodified to the session's load call; an absent, non-string or
blank netlist is replaced by the fixed fallback RC netlist; a successful
run performs exactly one netlist load, of the selected text. -/
theorem netlist_selection :
    (∀ (props : JsValue) (s : String), jsGet props "netlist" = JsValue.str s →
      jsTrim s ≠ "" → selectNetlist props = s) ∧
    (∀ props : JsValue, (∀ s, jsGet props "netlist" ≠ JsValue.str s) →
      selectNetlist props
        = "* simple rc\nV1 in 0 DC 1\nR1 in out 1k\nC1 out 0 1u\n.tran 1u 10u\n.end") ∧
    (∀ (props : JsValue) (s : String), jsGet props "netlist" = JsValue.str s →
      jsTrim s = "" → selectNetlist props
        = "* simple rc\nV1 in 0 DC 1\nR1 in out 1k\nC1 out 0 1u\n.tran 1u 10u\n.end") ∧
    (∀ (env : Env) (props : JsValue) (tr : List Effect) (json : String),
      runBody env props = Except.ok (tr, json) →
      tr.filter isLoadNetlistEffect = [Effect.loadNetlistE (selectNetlist props)]) := by
  have hfb : readNetlist
      = "* simple rc\nV1 in 0 DC 1\nR1 in out 1k\nC1 out 0 1u\n.tran 1u 10u\n.end" := by
    decide
  refine ⟨?_, ?_, ?_, ?_⟩
  · intro props s hs hne
    simp [selectNetlist, hs, hne]
  · intro props hns
    unfold selectNetlist
    cases hg : jsGet props "netlist" with
    | str s => exact absurd hg (hns s)
    | undef => exact hfb
    | null => exact hfb
    | bool b => exact hfb
    | num n => exact hfb
    | arr xs => exact hfb
    | obj fs => exact hfb
  · intro props s hs htrim
    simp [selectNetlist, hs, htrim, hfb]
  · intro env props tr json h
    obtain ⟨trEnsure, g1, sw, trSide, trProbes, hens, hsw, hss, hpr, hjson, htr⟩ :=
      runBody_ok_shape env props tr json h
    subst htr
    have h1 := (ensureNgspiceLoaded_ok _ _ _ _ hens).2
    have h2 := sideSteps_ok _ _ _ hss
    have h3 := probeEffects_ok_all _ _ _ hpr
    have hpf : trProbes.filter isLoadNetlistEffect = [] := by
      rw [List.filter_eq_nil_iff]
      intro e he
      obtain ⟨s, a, b, c, rfl⟩ := h3 e he
      simp [isLoadNetlistEffect]
    rcases h1 with rfl | rfl <;>
      rcases h2 with rfl | ⟨bts, rfl⟩ | ⟨bts, rfl⟩ <;>
        simp [List.filter_append, hpf, isLoadNetlistEffect, List.filter]

/-- Witness for C2: a non-blank netlist string passes through verbatim;
an absent netlist and a whitespace-only netlist both select the fallback
RC netlist; the all-success run loads exactly the selected netlist. -/
theorem netlist_selection_witness :
    selectNetlist (JsValue.obj [("netlist", JsValue.str "R1 1 0 1k\n.end")])
      = "R1 1 0 1k\n.end" ∧
    selectNetlist JsValue.undef
      = "* simple rc\nV1 in 0 DC 1\nR1 in out 1k\nC1 out 0 1u\n.tran 1u 10u\n.end" ∧
    selectNetlist (JsValue.obj [("netlist", JsValue.str "  ")])
      = "* simple rc\nV1 in 0 DC 1\nR1 in out 1k\nC1 out 0 1u\n.tran 1u 10u\n.end" ∧
    ([Effect.mkdir "/wasm", Effect.writeFile "/wasm/libngspice.wasm" [1],
      Effect.loadDynLib "/wasm/libngspice.wasm",
      Effect.loadNetlistE "* simple rc\nV1 in 0 DC 1\nR1 in out 1k\nC1 out 0 1u\n.tran 1u 10u\n.end",
      Effect.runE].filter isLoadNetlistEffect)
      = [Effect.loadNetlistE (selectNetlist JsValue.undef)] :=
  ⟨netlist_selection.1 (JsValue.obj [("netlist", JsValue.str "R1 1 0 1k\n.end")])
     "R1 1 0 1k\n.end" rfl (by decide),
   netlist_selection.2.1 JsValue.undef (fun s h => JsValue.noConfusion h),
   netlist_selection.2.2.1 (JsValue.obj [("netlist", JsValue.str "  ")]) "  " rfl (by decide),
   netlist_selection.2.2.2 envOK JsValue.undef
     [Effect.mkdir "/wasm", Effect.writeFile "/wasm/libngspice.wasm" [1],
      Effect.loadDynLib "/wasm/libngspice.wasm",
      Effect.loadNetlistE "* simple rc\nV1 in 0 DC 1\nR1 in out 1k\nC1 out 0 1u\n.tran 1u 10u\n.end",
      Effect.runE] "RESULT" rfl⟩

/-- Counterexample for C6 as stated: in a run where no side payload is
available from any source, the dynamic-library load of
`/wasm/libngspice.wasm` is still performed (the `loadDynamicLibrary`
call sits outside the `if (sideWasm)` block in the source), so it is not
the case that none of the bootstrap steps happen without a side payload. -/
theorem side_module_counterexample :
    sideWasmOf envNoSide = Except.ok none ∧
    Effect.loadDynLib "/wasm/libngspice.wasm" ∈ (runNgspice envNoSide JsValue.undef).1 := by
  exact ⟨rfl, by decide⟩

/-- C6 amended: when a side payload is present the bridge creates
`/wasm` exactly when the existence check reports it absent and writes
the payload bytes under its logical path; when no side payload is
available neither step happens; the dynamic-library load of the logical
path is performed on every successful run, with or without a side
payload. -/
theorem side_module_bootstrap :
    (∀ (env : Env) (bytes : List Nat), env.analyzePathWasmExists = false →
      env.mkdirResult = Except.ok () → env.writeFileResult = Except.ok () →
      sideSteps env (some bytes)
        = Except.ok [Effect.mkdir "/wasm", Effect.writeFile "/wasm/libngspice.wasm" bytes]) ∧
    (∀ (env : Env) (bytes : List Nat), env.analyzePathWasmExists = true →
      env.writeFileResult = Except.ok () →
      sideSteps env (some bytes)
        = Except.ok [Effect.writeFile "/wasm/libngspice.wasm" bytes]) ∧
    (∀ env : Env, sideSteps env none = Except.ok []) ∧
    (∀ (env : Env) (props : JsValue) (tr : List Effect) (json : String),
      runBody env props = Except.ok (tr, json) →
      Effect.loadDynLib "/wasm/libngspice.wasm" ∈ tr) := by
  refine ⟨?_, ?_, fun env => rfl, ?_⟩
  · intro env bytes hap hmk hwf
    simp [sideSteps, hap, hmk, hwf]
  · intro env bytes hap hwf
    simp [sideSteps, hap, hwf]
  · intro env props tr json h
    obtain ⟨trEnsure, g1, sw, trSide, trProbes, hens, hsw, hss, hpr, hjson, htr⟩ :=
      runBody_ok_shape env props tr json h
    subst htr
    simp

/-- Witness for the amended C6: concrete environments exercising the
directory-absent case, the directory-present case, the no-payload case,
and the unconditional dynamic-library load. -/
theorem side_module_bootstrap_witness :
    sideSteps envOK (some [1])
      = Except.ok [Effect.mkdir "/wasm", Effect.writeFile "/wasm/libngspice.wasm" [1]] ∧
    sideSteps envWasmDirExists (some [1])
      = Except.ok [Effect.writeFile "/wasm/libngspice.wasm" [1]] ∧
    sideSteps envOK none = Except.ok [] ∧
    Effect.loadDynLib "/wasm/libngspice.wasm" ∈
      [Effect.mkdir "/wasm", Effect.writeFile "/wasm/libngspice.wasm" [1],
       Effect.loadDynLib "/wasm/libngspice.wasm",
       Effect.loadNetlistE "* simple rc\nV1 in 0 DC 1\nR1 in out 1k\nC1 out 0 1u\n.tran 1u 10u\n.end",
       Effect.runE] :=
  ⟨side_module_bootstrap.1 envOK [1] rfl rfl rfl,
   side_module_bootstrap.2.1 envWasmDirExists [1] rfl rfl,
   side_module_bootstrap.2.2.1 envOK,
   side_module_bootstrap.2.2.2 envOK JsValue.undef
     [Effect.mkdir "/wasm", Effect.writeFile "/wasm/libngspice.wasm" [1],
      Effect.loadDynLib "/wasm/libngspice.wasm",
      Effect.loadNetlistE "* simple rc\nV1 in 0 DC 1\nR1 in out 1k\nC1 out 0 1u\n.tran 1u 10u\n.end",
      Effect.runE] "RESULT" rfl⟩

/-- Counterexample for C8 as stated: a caught non-Error object whose
"message" field is present and holds "boom" is reported through its
string form "[object Object]", not through its message field, because
the handler tests `instanceof Error` rather than field presence. -/
theorem caught_message_counterexample :
    jsGet (JsValue.obj [("message", JsValue.str "boom")]) "message" = JsValue.str "boom" ∧
    (runNgspice envThrowObj JsValue.undef).2
      = [(SpicePushEventType.ERROR_RESULT, "[object Object]")] ∧
    "[object Object]" ≠ "boom" := by
  exact ⟨rfl, by decide, by decide⟩

/-- C8 amended: the reported text is the caught value's message field
whenever the caught value is an Error instance, and the value's string
form otherwise — in particular a non-Error value carrying a message
field is still reported through its string form. -/
theorem caught_message_amended (env : Env) (props : JsValue) (e : JsErr)
    (h : runBody env props = Except.error e) :
    (runNgspice env props).2 = [(SpicePushEventType.ERROR_RESULT, caughtMessage e)] ∧
    (∀ m, e = JsErr.errObj m → caughtMessage e = m) ∧
    (∀ v, e = JsErr.thrown v → caughtMessage e = jsToString v) := by
  refine ⟨by simp [runNgspice, h], ?_, ?_⟩
  · intro m hm
    subst hm
    rfl
  · intro v hv
    subst hv
    rfl

/-- Witness for the amended C8: the run that throws a plain object. -/
theorem caught_message_amended_witness :
    (runNgspice envThrowObj JsValue.undef).2
      = [(SpicePushEventType.ERROR_RESULT,
          caughtMessage (JsErr.thrown (JsValue.obj [("message", JsValue.str "boom")])))] ∧
    (∀ m, JsErr.thrown (JsValue.obj [("message", JsValue.str "boom")]) = JsErr.errObj m →
      caughtMessage (JsErr.thrown (JsValue.obj [("message", JsValue.str "boom")])) = m) ∧
    (∀ v, JsErr.thrown (JsValue.obj [("message", JsValue.str "boom")]) = JsErr.thrown v →
      caughtMessage (JsErr.thrown (JsValue.obj [("message", JsValue.str "boom")]))
        = jsToString v) :=
  caught_message_amended envThrowObj JsValue.undef
    (JsErr.thrown (JsValue.obj [("message", JsValue.str "boom")])) rfl

/-- C9: the lifecycle entry point registers the pull-event listener
(named "sim-engine-monitor", scoped to "all") exactly when the status is
the string "onStartupFinished", and the registered listener invokes the
Simulation Bridge with the payload exactly when the event type is
SIMULATE_NETLIST, ignoring every other event type; the dispatch is
fire-and-forget by construction (the listener's result carries only the
decision to invoke, never the bridge's outcome, and no push event is
emitted by the listener itself). -/
theorem activation_and_dispatch :
    activate (some "onStartupFinished")
      = [ActivateEffect.registerListener "sim-engine-monitor" "all"] ∧
    (∀ status : Option String, status ≠ some "onStartupFinished" → activate status = []) ∧
    (∀ props : JsValue, listenerDispatch "SIMULATE_NETLIST" props = some props) ∧
    (∀ (eventType : String) (props : JsValue), eventType ≠ "SIMULATE_NETLIST" →
      listenerDispatch eventType props = none) := by
  refine ⟨rfl, ?_, fun props => rfl, ?_⟩
  · intro status hne
    unfold activate
    split
    · exact absurd rfl hne
    · rfl
  · intro eventType props hne
    unfold listenerDispatch
    split
    · exact absurd rfl hne
    · rfl

/-- Witness for C9: startup registers the listener; a different status
registers nothing; SIMULATE_NETLIST dispatches the payload; another
event type dispatches nothing. -/
theorem activation_and_dispatch_witness :
    activate (some "onStartupFinished")
      = [ActivateEffect.registerListener "sim-engine-monitor" "all"] ∧
    activate none = [] ∧
    listenerDispatch "SIMULATE_NETLIST" JsValue.undef = some JsValue.undef ∧
    listenerDispatch "VALIDATE_NETLIST" JsValue.undef = none :=
  ⟨activation_and_dispatch.1,
   activation_and_dispatch.2.1 none (fun h => Option.noConfusion h),
   activation_and_dispatch.2.2.1 JsValue.undef,
   activation_and_dispatch.2.2.2 "VALIDATE_NETLIST" JsValue.undef (by decide)⟩
